import Mathlib

/-!
Shallow embedding of the signature-to-PDF compositing pipeline of
vue-pdf-signer (src/src/lib/composables/usePdfDocument.ts, function
`saveDocument`, together with the helpers `toCap` and the constants it
uses).  JavaScript numbers are modelled as exact rationals (ℚ); the DOM
parse of the signature SVG string, the DOM bounding-box measurement
(`getUnionBBox`) and the base64 decoding of the source PDF
(`PDFDocument.load`) are external browser / pdf-lib services, so their
*results* (the parsed path list, the union bounding box, the decoded
page list) are inputs of the model.  The hex-colour conversion
`hexToPdfRgb` is a presentation-only re-encoding of the stroke string,
so draw operations record the post-default stroke string itself.
-/

namespace VuePdfSigner

/-- JavaScript truthiness of a nullable string: `null` and the empty
string are falsy (`!s` in the source guard). -/
def jsFalsy : Option String → Bool
  | none => true
  | some s => s.isEmpty

/-- JavaScript `attr || dflt` for a `getAttribute` result: `null` and
the empty string select the default. -/
def jsOr : Option String → String → String
  | none, dflt => dflt
  | some s, dflt => if s.isEmpty then dflt else s

/-- Result of `parseFloat(attr || '2')`-style defaulting: the attribute
value is modelled already parsed; an absent attribute takes the default. -/
def jsOrNum : Option ℚ → ℚ → ℚ
  | none, dflt => dflt
  | some q, _ => q

/-- Source: `const CM_TO_POINTS = 72 / 2.54` (line 129). -/
def CM_TO_POINTS : ℚ := 72 / 2.54

/-- Source line 148: `const adjustedCmToPoints = CM_TO_POINTS / userUnit`. -/
def adjustedCmToPoints (userUnit : ℚ) : ℚ := CM_TO_POINTS / userUnit

/-- pdf-lib `LineCapStyle` enumeration. -/
inductive LineCapStyle where
  | butt
  | round
  | projecting
deriving DecidableEq

/-- Source helper `toCap`: map an SVG linecap attribute to the pdf-lib
enum; `(cap || 'round').toLowerCase()` with `butt`, `square`,
`projecting` recognised and everything else rounded. -/
def toCap (cap : Option String) : LineCapStyle :=
  match (jsOr cap "round").toLower with
  | "butt" => LineCapStyle.butt
  | "square" => LineCapStyle.projecting
  | "projecting" => LineCapStyle.projecting
  | _ => LineCapStyle.round

/-- Placement rectangle in centimeters plus a 1-indexed page number
(src/src/lib/types.ts, `SignaturePlacement`).  The page number is an
arbitrary integer so that out-of-range values (0, negatives, past the
end) can be passed, as the host may. -/
structure SignaturePlacement where
  left : ℚ
  top : ℚ
  width : ℚ
  height : ℚ
  page : ℤ
deriving DecidableEq

/-- Union bounding box of the signature paths, as measured by
`getUnionBBox` (a DOM measurement; its result is an input here). -/
structure BBox where
  minX : ℚ
  minY : ℚ
  width : ℚ
  height : ℚ
deriving DecidableEq

/-- The parsed `viewBox` attribute `[vbX, vbY, vbW, vbH]` of the
signature SVG (line 108-109 of the source). -/
structure ViewBox where
  x : ℚ
  y : ℚ
  w : ℚ
  h : ℚ
deriving DecidableEq

/-- One `<path>` element of the signature SVG after DOM parsing.
`d`, `stroke`, `stroke-width` and `stroke-linecap` are `getAttribute`
results (`none` = attribute absent); the `stroke-width` value is
modelled already numeric (the source applies `parseFloat`). -/
structure PathElem where
  d : String
  stroke : Option String
  strokeWidthAttr : Option ℚ
  strokeLinecap : Option String
deriving DecidableEq

/-- The state of a page's `/UserUnit` dictionary entry as seen through
`page.node.get` / `context.lookup(·, PDFNumber)` / `asNumber`:
absent key, entry that does not yield a PDF number, numeric NaN, or a
numeric value. -/
inductive UUEntry where
  | absent
  | notNumber
  | nan
  | num (q : ℚ)
deriving DecidableEq

/-- Source lines 141-146: `let userUnit = 1.0; if (userUnitEntry) { ...
if (userUnitPdfNum) userUnit = asNumber(userUnitPdfNum) || 1.0 }`.
`asNumber(...) || 1.0` turns both `0` and `NaN` into `1.0`. -/
def resolveUserUnit : UUEntry → ℚ
  | UUEntry.absent => 1
  | UUEntry.notNumber => 1
  | UUEntry.nan => 1
  | UUEntry.num q => if q = 0 then 1 else q

/-- An operation recorded on a PDF page's content.  The vocabulary has
clipping operations so that "the compositor clips to the target box"
is expressible; `drawSvgPath` records the arguments of pdf-lib's
`page.drawSvgPath` call (the stroke colour is kept as the hex string
that `hexToPdfRgb` would re-encode). -/
inductive PageOp where
  | pushClip (x y w h : ℚ)
  | popClip
  | drawSvgPath (d : String) (x y scale : ℚ) (borderColor : String)
      (borderWidth : ℚ) (borderLineCap : LineCapStyle)
deriving DecidableEq

/-- True on the clipping operations, false on path draws. -/
def PageOp.isClip : PageOp → Bool
  | PageOp.pushClip _ _ _ _ => true
  | PageOp.popClip => true
  | PageOp.drawSvgPath _ _ _ _ _ _ _ => false

/-- One page of a loaded PDF: its height in points, its `/UserUnit`
entry, and the content operations accumulated on it. -/
structure PdfPage where
  height : ℚ
  userUnit : UUEntry
  ops : List PageOp
deriving DecidableEq

/-- A PDF document as materialised by `PDFDocument.load`. -/
structure LoadedPdf where
  pages : List PdfPage
deriving DecidableEq

/-- Source `pdfDoc.getPageCount()`. -/
def LoadedPdf.pageCount (d : LoadedPdf) : ℕ := d.pages.length

/-- Source line 137 (dead `else` branch kept): `useUnionBBox = true`. -/
def useUnionBBox : Bool := true

/-- Source line 155: `boxW = useUnionBBox ? union.width : vbW - vbX`. -/
def srcBoxW (union : BBox) (vb : ViewBox) : ℚ :=
  if useUnionBBox then union.width else vb.w - vb.x

/-- Source line 156: `boxH = useUnionBBox ? union.height : vbH - vbY`. -/
def srcBoxH (union : BBox) (vb : ViewBox) : ℚ :=
  if useUnionBBox then union.height else vb.h - vb.y

/-- The placement target box in page points, source lines 148-152:
`targetWidth/targetHeight/targetX` are the cm values times
`adjustedCmToPoints`, and `targetY = pageHeight - placement.top *
adjustedCmToPoints - targetHeight` (bottom-left PDF origin). -/
structure TargetBox where
  x : ℚ
  y : ℚ
  w : ℚ
  h : ℚ
deriving DecidableEq

/-- Compute the target box of a placement on a page of the given height
with the given `/UserUnit` entry (source lines 141-152). -/
def resolveTargetBox (pageHeight : ℚ) (uu : UUEntry) (pl : SignaturePlacement) :
    TargetBox :=
  let adj := adjustedCmToPoints (resolveUserUnit uu)
  let targetWidth := pl.width * adj
  let targetHeight := pl.height * adj
  let targetX := pl.left * adj
  let targetY := pageHeight - pl.top * adj - targetHeight
  { x := targetX, y := targetY, w := targetWidth, h := targetHeight }

/-- The aspect-preserving fit of the signature box into the target box,
source lines 163-167: `scale = min(targetWidth / boxW, targetHeight /
boxH)`, scaled sizes, and the centering offsets. -/
structure Fit where
  scale : ℚ
  scaledWidth : ℚ
  scaledHeight : ℚ
  centeredX : ℚ
  centeredY : ℚ
deriving DecidableEq

/-- Source lines 163-167. -/
def resolveFit (targetWidth targetHeight targetX targetY boxW boxH : ℚ) : Fit :=
  let scale := min (targetWidth / boxW) (targetHeight / boxH)
  let scaledWidth := boxW * scale
  let scaledHeight := boxH * scale
  { scale := scale
    scaledWidth := scaledWidth
    scaledHeight := scaledHeight
    centeredX := targetX + (targetWidth - scaledWidth) / 2
    centeredY := targetY + (targetHeight - scaledHeight) / 2 }

/-- Content operations one placement adds to its page, source lines
169-189: for each `<path>` with a non-empty `d`, a `drawSvgPath` with
defaulted stroke attributes, position shifted by the union-box minimum
times the scale, and the stroke width multiplied by the scale. -/
def drawOpsFor (page : PdfPage) (union : BBox) (vb : ViewBox)
    (paths : List PathElem) (pl : SignaturePlacement) : List PageOp :=
  let tb := resolveTargetBox page.height page.userUnit pl
  let boxW := srcBoxW union vb
  let boxH := srcBoxH union vb
  let fit := resolveFit tb.w tb.h tb.x tb.y boxW boxH
  paths.filterMap fun el =>
    if el.d.isEmpty then none
    else
      let stroke := jsOr el.stroke "#000080"
      let strokeWidth := jsOrNum el.strokeWidthAttr 2
      let cap := jsOr el.strokeLinecap "round"
      let offX := if useUnionBBox then union.minX else vb.x
      let offY := if useUnionBBox then union.minY else vb.y
      let x := fit.centeredX - offX * fit.scale
      let y := fit.centeredY + fit.scaledHeight + offY * fit.scale
      some (PageOp.drawSvgPath el.d x y fit.scale stroke
        (strokeWidth * fit.scale) (toCap (some cap)))

/-- Process one placement against a document, source lines 131-189:
skip when the 0-based page index is out of range (lines 132-136), skip
when the source box is degenerate (`!boxW || !boxH`, lines 158-161),
otherwise append the draw operations to the target page. -/
def applyPlacement (union : BBox) (vb : ViewBox) (paths : List PathElem)
    (doc : LoadedPdf) (pl : SignaturePlacement) : LoadedPdf :=
  let pageIndex : ℤ := pl.page - 1
  if pageIndex < 0 ∨ (doc.pageCount : ℤ) ≤ pageIndex then doc
  else
    match doc.pages.get? pageIndex.toNat with
    | none => doc
    | some page =>
      if srcBoxW union vb = 0 ∨ srcBoxH union vb = 0 then doc
      else
        { pages := doc.pages.set pageIndex.toNat
            { page with ops := page.ops ++ drawOpsFor page union vb paths pl } }

/-- The placement loop of `saveDocument` (source line 131): fold all
placements over the document in order. -/
def applyPlacements (union : BBox) (vb : ViewBox) (paths : List PathElem)
    (doc : LoadedPdf) (pls : List SignaturePlacement) : LoadedPdf :=
  pls.foldl (applyPlacement union vb paths) doc

/-- Decides whether a placement is actually processed (neither skip
branch taken): the 0-based page index is in `[0, pageCount)` and the
source box is non-degenerate. -/
def placementProcessed (pageCount : ℕ) (union : BBox) (vb : ViewBox)
    (pl : SignaturePlacement) : Bool :=
  decide (0 ≤ pl.page - 1) && decide (pl.page - 1 < (pageCount : ℤ)) &&
    !decide (srcBoxW union vb = 0) && !decide (srcBoxH union vb = 0)

/-- One entry of the multi-document list (src/src/lib/types.ts): the
identifying key, the PDF data (modelled already decoded, since
`PDFDocument.load` is pdf-lib's), and the configured placements. -/
structure PdfDocument where
  key : String
  data : LoadedPdf
  placements : List SignaturePlacement
deriving DecidableEq

/-- The per-document result packaged at source lines 192-197: the
mutated document (the base64 serialization of `saveAsBase64` is content
preserving, so the document itself is recorded) and the base64 part of
the PNG data URI. -/
structure SignatureResult where
  signedDocument : LoadedPdf
  signatureImage : Option String
deriving DecidableEq

/-- The `finish` payload: a map from document key to result, modelled
as the association list built in loop order. -/
abbrev FinishPayload := List (String × SignatureResult)

/-- Result of running `DOMParser` + `querySelectorAll('path')` +
viewBox parsing + `getUnionBBox` on the signature SVG string (source
lines 99-110); browser services, so their output is an input here. -/
structure ParsedSvg where
  hasSvgElement : Bool
  viewBox : ViewBox
  union : BBox
  paths : List PathElem
deriving DecidableEq

/-- The reactive inputs `saveDocument` closes over. -/
structure SaveInput where
  signatureSvg : Option String
  signaturePng : Option String
  newlySignedKeys : List String
  documents : List PdfDocument
  parsed : ParsedSvg

/-- Source line 113: `signaturePng.value.split(',')[1]` — the base64
part of the data URI, `undefined` (`none`) when there is no comma. -/
def pngBase64 (png : String) : Option String := (png.splitOn ",").get? 1

/-- Source line 126: `{ left: 5, top: 7, width: 8, height: 4, page: 1 }`,
the implicit placement used when a document configures none. -/
def defaultPlacement : SignaturePlacement :=
  { left := 5, top := 7, width := 8, height := 4, page := 1 }

/-- Process one newly-signed document, source lines 122-190: load it,
substitute the default placement when the list is empty (lines
124-127), and run the placement loop. -/
def processDocument (parsed : ParsedSvg) (doc : PdfDocument) : LoadedPdf :=
  let placements :=
    if doc.placements.length > 0 then doc.placements else [defaultPlacement]
  applyPlacements parsed.union parsed.viewBox parsed.paths doc.data placements

/-- The whole `saveDocument` (source lines 95-207) as a function from
the incoming `isSaving` flag and the inputs to the final flag and the
emitted payload (`none` when nothing is emitted).  `crash` abstracts an
exception thrown inside the `try` during composition or serialization:
it lands in the `catch` (nothing emitted) and, like every branch past
the guard, in the `finally` that clears the flag.  The early guard
(line 96) returns before touching the flag. -/
def saveDocument (isSaving : Bool) (inp : SaveInput) (crash : Bool) :
    Bool × Option FinishPayload :=
  if jsFalsy inp.signatureSvg || jsFalsy inp.signaturePng ||
      inp.newlySignedKeys.isEmpty then
    (isSaving, none)
  else if !inp.parsed.hasSvgElement || inp.parsed.paths.isEmpty then
    (false, none)
  else if crash then
    (false, none)
  else
    (false, some (inp.documents.filterMap fun d =>
      if inp.newlySignedKeys.contains d.key then
        some (d.key,
          { signedDocument := processDocument inp.parsed d
            signatureImage := inp.signaturePng.bind pngBase64 })
      else none))

/-- C1: with positive target width/height and a positive signature
bounding box, the resolved scale is `min(targetWidthPts / boxW,
targetHeightPts / boxH)`, the scaled sizes are the box sizes times that
scale, and neither scaled size exceeds its target: the fitted signature
never overflows the placement box on either axis. -/
theorem fit_scale_never_overflows (tw th tx ty bw bh : ℚ)
    (htw : 0 < tw) (hth : 0 < th) (hbw : 0 < bw) (hbh : 0 < bh) :
    (resolveFit tw th tx ty bw bh).scale = min (tw / bw) (th / bh) ∧
    (resolveFit tw th tx ty bw bh).scaledWidth =
      bw * (resolveFit tw th tx ty bw bh).scale ∧
    (resolveFit tw th tx ty bw bh).scaledHeight =
      bh * (resolveFit tw th tx ty bw bh).scale ∧
    (resolveFit tw th tx ty bw bh).scaledWidth ≤ tw ∧
    (resolveFit tw th tx ty bw bh).scaledHeight ≤ th := by
  refine ⟨rfl, rfl, rfl, ?_, ?_⟩
  · show bw * min (tw / bw) (th / bh) ≤ tw
    calc bw * min (tw / bw) (th / bh) ≤ bw * (tw / bw) :=
          mul_le_mul_of_nonneg_left (min_le_left _ _) hbw.le
      _ = tw := by field_simp
  · show bh * min (tw / bw) (th / bh) ≤ th
    calc bh * min (tw / bw) (th / bh) ≤ bh * (th / bh) :=
          mul_le_mul_of_nonneg_left (min_le_right _ _) hbh.le
      _ = th := by field_simp

/-- Witness for C1 at target 10×6 and box 4×2. -/
theorem fit_scale_never_overflows_witness :
    (0:ℚ) < 10 ∧ (0:ℚ) < 6 ∧ (0:ℚ) < 4 ∧ (0:ℚ) < 2 ∧
    ((resolveFit 10 6 0 0 4 2).scale = min (10 / 4) (6 / 2) ∧
     (resolveFit 10 6 0 0 4 2).scaledWidth =
       4 * (resolveFit 10 6 0 0 4 2).scale ∧
     (resolveFit 10 6 0 0 4 2).scaledHeight =
       2 * (resolveFit 10 6 0 0 4 2).scale ∧
     (resolveFit 10 6 0 0 4 2).scaledWidth ≤ 10 ∧
     (resolveFit 10 6 0 0 4 2).scaledHeight ≤ 6) :=
  ⟨by norm_num, by norm_num, by norm_num, by norm_num,
    fit_scale_never_overflows 10 6 0 0 4 2 (by norm_num) (by norm_num)
      (by norm_num) (by norm_num)⟩

/-- C2: the cm-to-points conversion applied to placement coordinates is
`cm * (72/2.54) / userUnit`, and at UserUnit = 2 each converted value —
hence the whole effective target box — is half of its UserUnit = 1
value. -/
theorem cm_to_points_conversion (cm u : ℚ) :
    cm * adjustedCmToPoints u = cm * (72 / 2.54) / u ∧
    adjustedCmToPoints 2 = adjustedCmToPoints 1 / 2 ∧
    cm * adjustedCmToPoints 2 = cm * adjustedCmToPoints 1 / 2 := by
  refine ⟨?_, by norm_num [adjustedCmToPoints, CM_TO_POINTS], ?_⟩
  · rw [adjustedCmToPoints, CM_TO_POINTS, mul_div_assoc]
  · rw [adjustedCmToPoints, adjustedCmToPoints, div_one, mul_div_assoc]

/-- C3: the vertical draw origin of the target box is `pageHeightPts -
topPts - targetHeightPts` (top-left cm placement mapped into the PDF's
bottom-left coordinate system), and on an A4 page (29.7 cm high,
UserUnit absent) the placement `{left 5, top 7, width 8, height 4, page
1}` yields a target box within 0.1 pt of `{x 141.7, y 530.1, w 226.8,
h 113.4}`. -/
theorem target_y_bottom_left (pageHeight : ℚ) (uu : UUEntry)
    (pl : SignaturePlacement) :
    (resolveTargetBox pageHeight uu pl).y =
      pageHeight - pl.top * adjustedCmToPoints (resolveUserUnit uu) -
        (resolveTargetBox pageHeight uu pl).h ∧
    |(resolveTargetBox (29.7 * CM_TO_POINTS) UUEntry.absent
        defaultPlacement).x - 141.7| ≤ 1/10 ∧
    |(resolveTargetBox (29.7 * CM_TO_POINTS) UUEntry.absent
        defaultPlacement).y - 530.1| ≤ 1/10 ∧
    |(resolveTargetBox (29.7 * CM_TO_POINTS) UUEntry.absent
        defaultPlacement).w - 226.8| ≤ 1/10 ∧
    |(resolveTargetBox (29.7 * CM_TO_POINTS) UUEntry.absent
        defaultPlacement).h - 113.4| ≤ 1/10 := by
  refine ⟨rfl, ?_, ?_, ?_, ?_⟩ <;>
    rw [abs_sub_le_iff] <;>
    constructor <;>
    norm_num [resolveTargetBox, adjustedCmToPoints, CM_TO_POINTS,
      resolveUserUnit, defaultPlacement]

/-- C4 (amended): the compositor never establishes a clipping
rectangle: every operation it adds to a page is a `drawSvgPath`; no
clip is pushed before the paths nor removed after them, so containment
in the placement box rests solely on the aspect-fit scale. -/
theorem compositor_never_clips (page : PdfPage) (union : BBox) (vb : ViewBox)
    (paths : List PathElem) (pl : SignaturePlacement) :
    (drawOpsFor page union vb paths pl).all (fun op => !op.isClip) = true := by
  rw [List.all_eq_true]
  intro op hop
  simp only [drawOpsFor, List.mem_filterMap] at hop
  obtain ⟨el, -, heq⟩ := hop
  by_cases hd : el.d.isEmpty
  · simp [hd] at heq
  · simp only [hd, if_neg, Bool.false_eq_true, not_false_eq_true,
      Option.some.injEq] at heq
    rw [← heq]
    rfl

/-- C4 (counterexample): a concrete drawn placement — one path, a
100×50 union box, the default placement on a one-page document — emits
a non-empty operation list that contains no clipping operation at all,
so no clipping rectangle is established before the signature paths are
drawn. -/
theorem compositor_never_clips_cex :
    drawOpsFor { height := 800, userUnit := UUEntry.absent, ops := [] }
        { minX := 0, minY := 0, width := 100, height := 50 }
        { x := 0, y := 0, w := 200, h := 160 }
        [{ d := "M 0 0 L 10 10", stroke := none, strokeWidthAttr := none,
           strokeLinecap := none }] defaultPlacement ≠ [] ∧
    (drawOpsFor { height := 800, userUnit := UUEntry.absent, ops := [] }
        { minX := 0, minY := 0, width := 100, height := 50 }
        { x := 0, y := 0, w := 200, h := 160 }
        [{ d := "M 0 0 L 10 10", stroke := none, strokeWidthAttr := none,
           strokeLinecap := none }] defaultPlacement).any PageOp.isClip
      = false := by
  constructor
  · decide
  · decide

/-- A placement on which a skip branch fires leaves the document
untouched (source `continue`s at lines 133-135 and 158-161). -/
theorem applyPlacement_skip (union : BBox) (vb : ViewBox)
    (paths : List PathElem) (doc : LoadedPdf) (pl : SignaturePlacement)
    (h : placementProcessed doc.pageCount union vb pl = false) :
    applyPlacement union vb paths doc pl = doc := by
  by_cases h1 : pl.page - 1 < 0 ∨ (doc.pageCount : ℤ) ≤ pl.page - 1
  · simp only [applyPlacement, if_pos h1]
  · by_cases h2 : srcBoxW union vb = 0 ∨ srcBoxH union vb = 0
    · simp only [applyPlacement, if_neg h1]
      cases hm : doc.pages.get? (pl.page - 1).toNat with
      | none => rfl
      | some page => simp only [if_pos h2]
    · exfalso
      push_neg at h1 h2
      simp [placementProcessed, h1.1, h1.2, h2.1, h2.2] at h

/-- Applying a placement never changes the page count (only a page's
operation list is replaced). -/
theorem applyPlacement_pageCount (union : BBox) (vb : ViewBox)
    (paths : List PathElem) (doc : LoadedPdf) (pl : SignaturePlacement) :
    (applyPlacement union vb paths doc pl).pageCount = doc.pageCount := by
  simp only [applyPlacement]
  split
  · rfl
  · split
    · rfl
    · split
      · rfl
      · simp [LoadedPdf.pageCount]

/-- The placement loop gives the same document whether or not the
skipped placements are removed from the list beforehand. -/
theorem applyPlacements_filter (union : BBox) (vb : ViewBox)
    (paths : List PathElem) (pls : List SignaturePlacement) :
    ∀ doc : LoadedPdf,
      applyPlacements union vb paths doc pls =
        applyPlacements union vb paths doc
          (pls.filter (placementProcessed doc.pageCount union vb)) := by
  induction pls with
  | nil => intro doc; rfl
  | cons pl rest ih =>
    intro doc
    by_cases hp : placementProcessed doc.pageCount union vb pl = true
    · have hstep : applyPlacements union vb paths doc (pl :: rest) =
          applyPlacements union vb paths
            (applyPlacement union vb paths doc pl) rest := rfl
      rw [hstep, ih, applyPlacement_pageCount,
        List.filter_cons_of_pos hp]
      rfl
    · rw [Bool.not_eq_true] at hp
      have hstep : applyPlacements union vb paths doc (pl :: rest) =
          applyPlacements union vb paths
            (applyPlacement union vb paths doc pl) rest := rfl
      rw [hstep, applyPlacement_skip union vb paths doc pl hp,
        List.filter_cons_of_neg (by simp [hp])]
      exact ih doc

/-- C5: a placement with an out-of-range page or a degenerate signature
source box is skipped — it leaves the document exactly as it was — and
the loop's result is the same as processing only the non-skipped
placements, so all remaining placements are still processed and the
save still completes. -/
theorem invalid_placements_skipped (union : BBox) (vb : ViewBox)
    (paths : List PathElem) (doc : LoadedPdf)
    (pls : List SignaturePlacement) :
    (∀ pl, placementProcessed doc.pageCount union vb pl = false →
        applyPlacement union vb paths doc pl = doc) ∧
    applyPlacements union vb paths doc pls =
      applyPlacements union vb paths doc
        (pls.filter (placementProcessed doc.pageCount union vb)) :=
  ⟨fun pl h => applyPlacement_skip union vb paths doc pl h,
   applyPlacements_filter union vb paths pls doc⟩

/-- Witness for C5: a placement with page 0 on a one-page document is
skipped, and filtering it out of a two-placement list leaves the loop
result unchanged. -/
theorem invalid_placements_skipped_witness :
    applyPlacement { minX := 0, minY := 0, width := 10, height := 5 }
        { x := 0, y := 0, w := 200, h := 160 } []
        { pages := [{ height := 800, userUnit := UUEntry.absent, ops := [] }] }
        { left := 1, top := 1, width := 1, height := 1, page := 0 } =
      { pages := [{ height := 800, userUnit := UUEntry.absent, ops := [] }] } :=
  (invalid_placements_skipped { minX := 0, minY := 0, width := 10, height := 5 }
      { x := 0, y := 0, w := 200, h := 160 } []
      { pages := [{ height := 800, userUnit := UUEntry.absent, ops := [] }] }
      []).1
    { left := 1, top := 1, width := 1, height := 1, page := 0 } (by decide)

/-- The keys of the association list built by the document loop are
exactly the keys of the documents whose key is in the newly-signed
set, in document order. -/
theorem filterMap_keys (keys : List String) (docs : List PdfDocument)
    (f : PdfDocument → SignatureResult) :
    ((docs.filterMap fun d =>
        if keys.contains d.key then some (d.key, f d) else none).map
      Prod.fst) =
      (docs.filter fun d => keys.contains d.key).map (fun d => d.key) := by
  induction docs with
  | nil => rfl
  | cons d rest ih =>
    by_cases hk : d.key ∈ keys
    · simp [List.filterMap_cons, List.filter_cons, hk]
      simpa using ih
    · simp [List.filterMap_cons, List.filter_cons, hk]
      simpa using ih

/-- C6: when the save proceeds (signature present, keys non-empty,
parsable SVG with paths, no exception), the emitted result map holds
exactly the documents of the batch whose keys are in the newly-signed
set, keyed by their identifier; documents not newly signed contribute
no entry. -/
theorem batch_result_keys (isS : Bool) (inp : SaveInput)
    (hsvg : jsFalsy inp.signatureSvg = false)
    (hpng : jsFalsy inp.signaturePng = false)
    (hkeys : inp.newlySignedKeys.isEmpty = false)
    (hel : inp.parsed.hasSvgElement = true)
    (hpaths : inp.parsed.paths.isEmpty = false) :
    ∃ m, (saveDocument isS inp false).2 = some m ∧
      m.map Prod.fst =
        (inp.documents.filter fun d =>
          inp.newlySignedKeys.contains d.key).map (fun d => d.key) := by
  have hs : (saveDocument isS inp false).2 =
      some (inp.documents.filterMap fun d =>
        if inp.newlySignedKeys.contains d.key then
          some (d.key,
            { signedDocument := processDocument inp.parsed d
              signatureImage := inp.signaturePng.bind pngBase64 })
        else none) := by
    rw [saveDocument, hsvg, hpng, hkeys, hel, hpaths]
    rfl
  exact ⟨_, hs, filterMap_keys inp.newlySignedKeys inp.documents _⟩

/-- Concrete batch of three one-page documents of which only the second
is newly signed (scenario C input, used by the C6 witness). -/
def threeDocBatch : SaveInput :=
  { signatureSvg := some "<svg/>"
    signaturePng := some "data:image/png;base64,AAAA"
    newlySignedKeys := ["doc2"]
    documents :=
      [{ key := "doc1",
         data := { pages := [{ height := 841, userUnit := UUEntry.absent, ops := [] }] },
         placements := [] },
       { key := "doc2",
         data := { pages := [{ height := 841, userUnit := UUEntry.absent, ops := [] }] },
         placements := [] },
       { key := "doc3",
         data := { pages := [{ height := 841, userUnit := UUEntry.absent, ops := [] }] },
         placements := [] }]
    parsed :=
      { hasSvgElement := true
        viewBox := { x := 0, y := 0, w := 200, h := 160 }
        union := { minX := 0, minY := 0, width := 10, height := 5 }
        paths := [{ d := "M 0 0 L 1 1", stroke := none,
                    strokeWidthAttr := none, strokeLinecap := none }] } }

/-- Witness for C6: with three documents and only `doc2` newly signed,
the emitted map has exactly the single key `doc2`. -/
theorem batch_result_keys_witness :
    ∃ m, (saveDocument false threeDocBatch false).2 = some m ∧
      m.map Prod.fst = ["doc2"] := by
  obtain ⟨m, h1, h2⟩ := batch_result_keys false threeDocBatch
    (by decide) (by decide) (by decide) (by decide) (by decide)
  refine ⟨m, h1, ?_⟩
  rw [h2]
  decide

/-- C7: an absent `/UserUnit` entry, an entry that yields no PDF
number, a NaN value and a zero value all resolve to a UserUnit scale of
1.0, and a page carrying any of them produces exactly the operations of
a page with UserUnit 1 — the conversion proceeds and never fails on
account of the page unit metadata. -/
theorem user_unit_fallback :
    resolveUserUnit UUEntry.absent = 1 ∧
    resolveUserUnit UUEntry.notNumber = 1 ∧
    resolveUserUnit UUEntry.nan = 1 ∧
    resolveUserUnit (UUEntry.num 0) = 1 ∧
    ∀ (h : ℚ) (ops : List PageOp) (union : BBox) (vb : ViewBox)
      (paths : List PathElem) (pl : SignaturePlacement),
      drawOpsFor { height := h, userUnit := UUEntry.absent, ops := ops }
          union vb paths pl =
        drawOpsFor { height := h, userUnit := UUEntry.num 1, ops := ops }
          union vb paths pl ∧
      drawOpsFor { height := h, userUnit := UUEntry.notNumber, ops := ops }
          union vb paths pl =
        drawOpsFor { height := h, userUnit := UUEntry.num 1, ops := ops }
          union vb paths pl ∧
      drawOpsFor { height := h, userUnit := UUEntry.nan, ops := ops }
          union vb paths pl =
        drawOpsFor { height := h, userUnit := UUEntry.num 1, ops := ops }
          union vb paths pl ∧
      drawOpsFor { height := h, userUnit := UUEntry.num 0, ops := ops }
          union vb paths pl =
        drawOpsFor { height := h, userUnit := UUEntry.num 1, ops := ops }
          union vb paths pl := by
  refine ⟨rfl, rfl, rfl, by norm_num [resolveUserUnit], ?_⟩
  intro h ops union vb paths pl
  refine ⟨rfl, rfl, rfl, ?_⟩
  have huu : resolveUserUnit (UUEntry.num 0) = resolveUserUnit (UUEntry.num 1) := by
    norm_num [resolveUserUnit]
  simp only [drawOpsFor, resolveTargetBox, huu]

/-- C8: when the parsed signature markup contains no `<path>` elements
the save emits nothing — no `finish` payload is produced on any branch,
crash or not, guard or not. -/
theorem empty_signature_is_noop (isS : Bool) (inp : SaveInput) (crash : Bool)
    (hpaths : inp.parsed.paths = []) :
    (saveDocument isS inp crash).2 = none := by
  rw [saveDocument]
  split
  · rfl
  · rw [hpaths]
    simp

/-- Inputs with a drawable-path-free signature markup (used by the C8
witness). -/
def zeroPathInput : SaveInput :=
  { signatureSvg := some "<svg/>"
    signaturePng := some "data:image/png;base64,AAAA"
    newlySignedKeys := ["doc1"]
    documents :=
      [{ key := "doc1",
         data := { pages := [{ height := 841, userUnit := UUEntry.absent, ops := [] }] },
         placements := [] }]
    parsed :=
      { hasSvgElement := true
        viewBox := { x := 0, y := 0, w := 200, h := 160 }
        union := { minX := 0, minY := 0, width := 0, height := 0 }
        paths := [] } }

/-- Witness for C8: a signature with zero paths yields no result. -/
theorem empty_signature_is_noop_witness :
    (saveDocument false zeroPathInput false).2 = none :=
  empty_signature_is_noop false zeroPathInput false rfl

/-- C9: starting from the non-saving state in which the operation is
triggered, every exit path of `saveDocument` — the early guard return,
the missing-svg/paths return, the exception path and the success path —
ends with the `isSaving` flag false. -/
theorem saving_flag_cleared (inp : SaveInput) (crash : Bool) :
    (saveDocument false inp crash).1 = false := by
  rw [saveDocument]
  split
  · rfl
  · split
    · rfl
    · split
      · rfl
      · rfl

/-- A placement loop in which every placement is skipped returns the
loaded document unchanged. -/
theorem applyPlacements_all_skipped (union : BBox) (vb : ViewBox)
    (paths : List PathElem) (pls : List SignaturePlacement) :
    ∀ doc : LoadedPdf,
      (∀ pl ∈ pls, placementProcessed doc.pageCount union vb pl = false) →
      applyPlacements union vb paths doc pls = doc := by
  induction pls with
  | nil => intro doc _; rfl
  | cons pl rest ih =>
    intro doc h
    have h1 := h pl (List.mem_cons_self pl rest)
    have hstep : applyPlacements union vb paths doc (pl :: rest) =
        applyPlacements union vb paths
          (applyPlacement union vb paths doc pl) rest := rfl
    rw [hstep, applyPlacement_skip union vb paths doc pl h1]
    exact ih doc fun q hq => h q (List.mem_cons_of_mem pl hq)

/-- C10: a newly-signed document whose placements are all skipped
(out-of-range page or degenerate source box) still contributes an entry
to the emitted result map, keyed by its identifier, whose signed
document is the re-serialized input PDF with nothing drawn on it,
paired with the captured signature raster. -/
theorem skipped_doc_still_in_results (inp : SaveInput) (d : PdfDocument)
    (hsvg : jsFalsy inp.signatureSvg = false)
    (hpng : jsFalsy inp.signaturePng = false)
    (hkeys : inp.newlySignedKeys.isEmpty = false)
    (hel : inp.parsed.hasSvgElement = true)
    (hpaths : inp.parsed.paths.isEmpty = false)
    (hd : d ∈ inp.documents)
    (hkey : inp.newlySignedKeys.contains d.key = true)
    (hplc : 0 < d.placements.length)
    (hall : ∀ pl ∈ d.placements,
      placementProcessed d.data.pageCount inp.parsed.union inp.parsed.viewBox
        pl = false) :
    ∃ m, (saveDocument false inp false).2 = some m ∧
      (d.key,
        { signedDocument := d.data
          signatureImage := inp.signaturePng.bind pngBase64
          : SignatureResult }) ∈ m := by
  have hproc : processDocument inp.parsed d = d.data := by
    rw [processDocument, if_pos hplc]
    exact applyPlacements_all_skipped inp.parsed.union inp.parsed.viewBox
      inp.parsed.paths d.placements d.data hall
  have hs : (saveDocument false inp false).2 =
      some (inp.documents.filterMap fun q =>
        if inp.newlySignedKeys.contains q.key then
          some (q.key,
            { signedDocument := processDocument inp.parsed q
              signatureImage := inp.signaturePng.bind pngBase64 })
        else none) := by
    rw [saveDocument, hsvg, hpng, hkeys, hel, hpaths]
    rfl
  refine ⟨_, hs, List.mem_filterMap.mpr ⟨d, hd, ?_⟩⟩
  rw [if_pos hkey, hproc]

/-- Input with one newly-signed document whose single placement targets
page 99 of a one-page PDF (used by the C10 witness). -/
def allSkippedInput : SaveInput :=
  { signatureSvg := some "<svg/>"
    signaturePng := some "data:image/png;base64,AAAA"
    newlySignedKeys := ["doc1"]
    documents :=
      [{ key := "doc1",
         data := { pages := [{ height := 841, userUnit := UUEntry.absent, ops := [] }] },
         placements := [{ left := 1, top := 1, width := 1, height := 1, page := 99 }] }]
    parsed :=
      { hasSvgElement := true
        viewBox := { x := 0, y := 0, w := 200, h := 160 }
        union := { minX := 0, minY := 0, width := 10, height := 5 }
        paths := [{ d := "M 0 0 L 1 1", stroke := none,
                    strokeWidthAttr := none, strokeLinecap := none }] } }

/-- Witness for C10: the document whose only placement targets an
out-of-range page still appears in the result, untouched. -/
theorem skipped_doc_still_in_results_witness :
    ∃ m, (saveDocument false allSkippedInput false).2 = some m ∧
      ("doc1",
        { signedDocument :=
            { pages := [{ height := 841, userUnit := UUEntry.absent, ops := [] }] }
          signatureImage := (some "data:image/png;base64,AAAA").bind pngBase64
          : SignatureResult }) ∈ m :=
  skipped_doc_still_in_results allSkippedInput
    { key := "doc1",
      data := { pages := [{ height := 841, userUnit := UUEntry.absent, ops := [] }] },
      placements := [{ left := 1, top := 1, width := 1, height := 1, page := 99 }] }
    (by decide) (by decide) (by decide) (by decide) (by decide)
    (by decide) (by decide) (by decide) (by decide)

end VuePdfSigner
